import Mathlib

/-!
Shallow embedding of the scenario projection engine of
`src/Bhum_dashboard.py` (the "Monetary Policy Risk Dashboard").

The engine is a block of straight-line numeric code inside the Streamlit
script; we embed each computation as a function of its inputs:

* the shock response model (lines 100–139): per-channel effects on GDP,
  the combined percentage effect and the projected GDP, over `ℝ`
  (the liquidity channel uses `tanh`, so this part is not rational);
* the inflation projection and its clip (lines 154–156);
* the uncertainty band (lines 112–114 and 141–147);
* the risk scoring model (lines 183–195), over `ℚ` (pure rational
  arithmetic, kept computable so that concrete runs can be decided);
* the real-rate computation (lines 177–179) and the heat-table /
  insight generator (lines 249–308), over `ℚ`.

The synthetic historical series (lines 80–85) draws bounded noise from a
seeded generator; we model a series entry by the predicate "is a value
the generator can produce" (`isGenGDP`, `isGenInfl`) rather than by
reproducing numpy's PCG64 stream.
-/

namespace Bhum

/-! ### Model coefficients (lines 100–104) -/

noncomputable def alpha_int : ℝ := 0.6

noncomputable def beta_int : ℝ := 0.25

noncomputable def alpha_liq : ℝ := 0.15

noncomputable def gamma_infl : ℝ := 0.35

noncomputable def quadratic_infl_threshold : ℝ := 2

/-! ### Shock response model (lines 120–139)

`np.sign` returns 1, -1 or 0 by the sign of its argument. -/

noncomputable def np_sign (x : ℝ) : ℝ :=
  if 0 < x then 1 else if x < 0 then -1 else 0

/-- Linear part of the interest-rate effect (line 121). -/
noncomputable def int_lin (r : ℝ) : ℝ := alpha_int * r

/-- Quadratic part of the interest-rate effect (line 122):
`beta_int * (max(0, r) ** 2) if r > 0 else beta_int * (min(0, r) ** 2)`. -/
noncomputable def int_quad (r : ℝ) : ℝ :=
  if 0 < r then beta_int * max 0 r ^ 2 else beta_int * min 0 r ^ 2

/-- Interest-rate effect in percent of GDP (line 123). -/
noncomputable def interest_effect_pct (r : ℝ) : ℝ := int_lin r + int_quad r

/-- Liquidity effect in percent of GDP (line 126):
`alpha_liq * np.tanh(liquidity_change / 5.0)`. -/
noncomputable def liquidity_effect_pct (l : ℝ) : ℝ :=
  alpha_liq * Real.tanh (l / 5)

/-- Inflation effect in percent of GDP (lines 129–131): the linear base,
plus the extra quadratic penalty when `abs(inflation_change)` exceeds the
threshold. -/
noncomputable def infl_effect_pct (i : ℝ) : ℝ :=
  gamma_infl * i +
    (if quadratic_infl_threshold < |i| then
      0.05 * (|i| - quadratic_infl_threshold) ^ 2 * np_sign i
    else 0)

/-- Combined percentage change to GDP (line 134). -/
noncomputable def combined_pct (r l i : ℝ) : ℝ :=
  -interest_effect_pct r + liquidity_effect_pct l - infl_effect_pct i

/-- Projected GDP for one year (lines 137–139): the percentage applied to
the base value, then floored at zero. -/
noncomputable def projected (g r l i : ℝ) : ℝ :=
  max (g * (1 + combined_pct r l i / 100)) 0

/-- `np.clip(x, lo, hi)`. -/
noncomputable def np_clip (x lo hi : ℝ) : ℝ := min (max x lo) hi

/-- Projected inflation for one year (lines 154–156): base plus shock,
clipped to `[-10, 50]`. -/
noncomputable def projected_inflation (base_infl i : ℝ) : ℝ :=
  np_clip (base_infl + i) (-10) 50

/-! ### Uncertainty band (lines 112–114 and 141–147) -/

/-- Historical volatility with its floor (lines 112–114): `v` stands for
`np.std(np.diff(GDP)) / np.mean(GDP)`; a non-positive (or, in numpy, NaN)
value is replaced by `0.02`.  `ℝ` has no NaN, so only the sign test
remains. -/
noncomputable def gdp_vol_pct (v : ℝ) : ℝ := if v ≤ 0 then 0.02 else v

/-- Shock strength for the band width (line 142). -/
noncomputable def shock_strength (r l i : ℝ) : ℝ :=
  |r| * 0.6 + |l| * 0.3 + |i| * 0.8

/-- Band multiplier (line 143): widening capped at 60%. -/
noncomputable def band_multiplier (r l i : ℝ) : ℝ :=
  1 + min 0.6 (shock_strength r l i / 5)

/-- Band half-width for one year (line 144), with `v` the raw volatility
statistic of line 112. -/
noncomputable def band (g v r l i : ℝ) : ℝ :=
  g * gdp_vol_pct v * band_multiplier r l i

/-- Upper band edge (line 146). -/
noncomputable def gdp_best (g v r l i : ℝ) : ℝ :=
  projected g r l i + band g v r l i

/-- Lower band edge (line 147), floored at zero. -/
noncomputable def gdp_worst (g v r l i : ℝ) : ℝ :=
  max (projected g r l i - band g v r l i) 0

/-! ### Synthetic historical series (lines 80–85)

GDP entry `k` is `1000 + k * 50 + int(rng.integers(-20, 20))` — the noise
is an integer in `[-20, 19]` (numpy's upper bound is exclusive).  An
inflation entry is `5.0 + rng.uniform(-1.0, 1.0)`. -/

def isGenGDP (k : ℕ) (g : ℝ) : Prop :=
  ∃ n : ℤ, -20 ≤ n ∧ n ≤ 19 ∧ g = 1000 + 50 * k + n

def isGenInfl (v : ℝ) : Prop :=
  ∃ u : ℝ, -1 ≤ u ∧ u ≤ 1 ∧ v = 5 + u

/-! ### Risk scoring model (lines 183–195), over `ℚ` -/

def contrib_interest (r : ℚ) : ℚ := |r| * 3

def contrib_liquidity (l : ℚ) : ℚ := |l| * 2

def contrib_inflation (i : ℚ) : ℚ := |i| * 4

def risk_score (r l i : ℚ) : ℚ :=
  contrib_interest r + contrib_liquidity l + contrib_inflation i

def risk_score_normalized (r l i : ℚ) : ℚ :=
  min 10 (risk_score r l i / 9 * 10)

inductive RiskLevel where
  | Low
  | Medium
  | High
deriving DecidableEq

/-- Risk level from the normalized score (lines 190–195). -/
def risk_level (s : ℚ) : RiskLevel :=
  if s < 3 then .Low else if s < 6 then .Medium else .High

/-! ### Real effective interest rate (lines 177–179) -/

def new_nominal_rate (baseline_policy_rate r : ℚ) : ℚ :=
  baseline_policy_rate + r

def new_inflation_rate (baseline_inflation i : ℚ) : ℚ :=
  baseline_inflation + i

def real_rate (baseline_policy_rate baseline_inflation r i : ℚ) : ℚ :=
  new_nominal_rate baseline_policy_rate r - new_inflation_rate baseline_inflation i

/-- Modelled from the spec: the forward-guidance classification of spec
§4.6 is not part of `src/Bhum_dashboard.py` (that file computes only
`real_rate`); the decision table below follows the spec's fixed priority
order, first match wins. -/
def guidance (rr gap : ℚ) : String :=
  if rr < 0 ∧ 1/2 < gap then "Tighten significantly"
  else if 1 < rr ∧ gap < -(1/2) then "Scope to ease"
  else if |rr - 1/2| < 1/2 ∧ |gap| < 1/2 then "Neutral / wait-and-watch"
  else "Data-dependent / mixed"

/-! ### Heat table and insight generator (lines 249–308), over `ℚ`

`heat_df` (lines 249–253) is a dataframe indexed by component name with
columns `"Change"` and `"Contribution_raw"`; we model it column-wise as an
association list from column name to the column's values, plus the index.
A pandas column access `df[name]` raises `KeyError` when `name` is not a
column; we model it as `List.lookup`, returning `none` in that case.
The f-string numeric interpolations of the insight texts are elided: only
the choice and order of the statements matter here. -/

def heat_index : List String := ["Interest Rate", "Liquidity", "Inflation"]

def heat_df_cols (r l i : ℚ) : List (String × List ℚ) :=
  [("Change", [r, l, i]),
   ("Contribution_raw", [contrib_interest r, contrib_liquidity l, contrib_inflation i])]

/-- Column name used by line 277 of the source — note it differs from the
column name `"Contribution_raw"` that `heat_df` declares at line 252. -/
def dominant_col : String := "Contribution (raw)"

/-- Series.idxmax over labelled values: the label of the first maximal
value (pandas returns the first occurrence of the maximum). -/
def idxmaxGo : String → ℚ → List (String × ℚ) → String
  | b, _, [] => b
  | b, bv, (k, v) :: rest => if bv < v then idxmaxGo k v rest else idxmaxGo b bv rest

def idxmax : List (String × ℚ) → Option String
  | [] => none
  | (k, v) :: rest => some (idxmaxGo k v rest)

/-- Interest-direction statement (lines 281–286). -/
def interest_insight (r : ℚ) : String :=
  if 0 < r then "Rising interest rates are likely to slow GDP growth and tighten financial conditions."
  else if r < 0 then "Cutting interest rates provides stimulus and may boost growth."
  else "Interest rate stance unchanged in this scenario."

/-- Liquidity-direction statement (lines 288–293). -/
def liquidity_insight (l : ℚ) : String :=
  if l < 0 then "Liquidity contraction could pressure markets and credit availability."
  else if 0 < l then "Liquidity injection supports activity and financial markets."
  else "No major change in liquidity."

/-- Inflation-direction statement (lines 295–300). -/
def inflation_insight (i : ℚ) : String :=
  if 1/2 < i then "Inflation is rising — monetary tightening may be appropriate to anchor expectations."
  else if i < -(1/2) then "Inflation is falling — policy could stay accommodative to support demand."
  else "Inflation change is modest."

/-- Overall statement keyed to the normalized score (lines 303–308). -/
def overall_insight (s : ℚ) : String :=
  if 7 ≤ s then "Overall assessment: High risk."
  else if 4 ≤ s then "Overall assessment: Medium risk."
  else "Overall assessment: Low risk."

/-- Insight generator (lines 275–308): the dominant-channel statement from
`heat_df[dominant_col].idxmax()`, one directional statement per channel,
then the overall statement.  The column access that Python performs at
line 277 is the `List.lookup`; when it fails (pandas `KeyError`) the whole
computation aborts with `none`. -/
def insights (r l i s : ℚ) : Option (List String) :=
  match List.lookup dominant_col (heat_df_cols r l i) with
  | none => none
  | some col =>
    match idxmax (heat_index.zip col) with
    | none => none
    | some dominant =>
      some (("The largest contributor to risk is " ++ dominant) ::
        [interest_insight r, liquidity_insight l, inflation_insight i,
         overall_insight s])

/-! ### Facts about `Real.tanh` used by the liquidity channel -/

lemma tanh_eq_exp_form (x : ℝ) :
    Real.tanh x = (Real.exp (2 * x) - 1) / (Real.exp (2 * x) + 1) := by
  have h1 : Real.exp x ≠ 0 := (Real.exp_pos x).ne'
  have h2 : Real.exp (2 * x) = Real.exp x * Real.exp x := by
    rw [two_mul, Real.exp_add]
  have h4 : Real.exp x + (Real.exp x)⁻¹ ≠ 0 := by positivity
  have h5 : Real.exp x * Real.exp x + 1 ≠ 0 := by positivity
  rw [Real.tanh_eq_sinh_div_cosh, Real.sinh_eq, Real.cosh_eq, h2, Real.exp_neg]
  field_simp

lemma tanh_strict_increasing : StrictMono Real.tanh := by
  intro a b hab
  have ha : 0 < Real.exp (2 * a) := Real.exp_pos _
  have hb : 0 < Real.exp (2 * b) := Real.exp_pos _
  have hlt : Real.exp (2 * a) < Real.exp (2 * b) :=
    Real.exp_lt_exp.mpr (by linarith)
  rw [tanh_eq_exp_form, tanh_eq_exp_form,
    div_lt_div_iff₀ (by linarith) (by linarith)]
  nlinarith

lemma tanh_lt_one (x : ℝ) : Real.tanh x < 1 := by
  have h : 0 < Real.exp (2 * x) := Real.exp_pos _
  rw [tanh_eq_exp_form, div_lt_one (by linarith)]
  linarith

lemma neg_one_lt_tanh (x : ℝ) : -1 < Real.tanh x := by
  have h : 0 < Real.exp (2 * x) := Real.exp_pos _
  rw [tanh_eq_exp_form, lt_div_iff₀ (by linarith)]
  linarith

/-! ### Shared helper lemmas -/

lemma int_quad_eq (r : ℝ) : int_quad r = beta_int * r ^ 2 := by
  unfold int_quad
  by_cases h : 0 < r
  · rw [if_pos h, max_eq_right h.le]
  · rw [if_neg h, min_eq_right (not_lt.mp h)]

lemma isGenGDP_ge_980 (k : ℕ) (g : ℝ) (h : isGenGDP k g) : 980 ≤ g := by
  obtain ⟨n, h1, h2, rfl⟩ := h
  have hk : (0:ℝ) ≤ (k:ℝ) := Nat.cast_nonneg k
  have hn : (-20:ℝ) ≤ (n:ℝ) := by exact_mod_cast h1
  linarith

lemma combined_pct_zero : combined_pct 0 0 0 = 0 := by
  have h1 : int_quad 0 = 0 := by rw [int_quad_eq]; ring
  simp [combined_pct, interest_effect_pct, int_lin, liquidity_effect_pct,
    infl_effect_pct, np_sign, h1, Real.tanh_zero]

lemma risk_score_nonneg (r l i : ℚ) : 0 ≤ risk_score r l i := by
  unfold risk_score contrib_interest contrib_liquidity contrib_inflation
  positivity

/-! ### The claims -/

/-- C1: whenever `real_interest_rate < 0` and the inflation-target gap
exceeds `0.5`, the guidance classification returns "Tighten significantly";
rule 1 stands first in the decision table, so it wins regardless of the
other rules' conditions. -/
theorem c1_guidance_rule1 (bpr bi r i gap : ℚ)
    (h1 : real_rate bpr bi r i < 0) (h2 : 1/2 < gap) :
    guidance (real_rate bpr bi r i) gap = "Tighten significantly" := by
  unfold guidance
  rw [if_pos ⟨h1, h2⟩]

/-- C1 witness: `real_interest_rate = -0.5` (baseline rate 6, baseline
inflation 5, rate shock `-0.75`, inflation shock `+0.75`) and gap `1.0`
classify as "Tighten significantly". -/
theorem c1_guidance_rule1_witness :
    guidance (real_rate 6 5 (-3/4) (3/4)) 1 = "Tighten significantly" :=
  c1_guidance_rule1 6 5 (-3/4) (3/4) 1
    (by norm_num [real_rate, new_nominal_rate, new_inflation_rate]) (by norm_num)

/-- C2: the insight generator never produces its list of statements — the
column access `heat_df["Contribution (raw)"]` at line 277 names a column
that `heat_df` does not have (line 252 names it `"Contribution_raw"`), so
the computation aborts (a pandas `KeyError`) for every shock triple and
every score. -/
theorem c2_insights_keyerror : ∀ r l i s : ℚ, insights r l i s = none := by
  intro r l i s
  rfl

/-- C5: the quadratic drag term of the rate effect equals
`beta_int * rate_change ^ 2`, is non-negative, and is the same for a hike
and for a cut of equal size. -/
theorem c5_quadratic_drag :
    ∀ x : ℝ, int_quad x = beta_int * x ^ 2 ∧ 0 ≤ int_quad x ∧
      int_quad x = int_quad (-x) := by
  intro x
  refine ⟨int_quad_eq x, ?_, ?_⟩
  · rw [int_quad_eq]
    unfold beta_int
    positivity
  · rw [int_quad_eq, int_quad_eq]
    ring

/-- C6: the liquidity effect `alpha_liq * tanh (l / 5)` is strictly
increasing in the liquidity change and bounded in the open interval
`(-0.15, 0.15)` (with `alpha_liq = 0.15`), saturating for large shocks. -/
theorem c6_liquidity_saturating :
    StrictMono liquidity_effect_pct ∧ alpha_liq = 0.15 ∧
    ∀ l : ℝ, -(0.15) < liquidity_effect_pct l ∧ liquidity_effect_pct l < 0.15 := by
  refine ⟨?_, by norm_num [alpha_liq], ?_⟩
  · intro a b hab
    unfold liquidity_effect_pct
    have h : Real.tanh (a / 5) < Real.tanh (b / 5) :=
      tanh_strict_increasing (by linarith)
    have ha : (0:ℝ) < alpha_liq := by unfold alpha_liq; norm_num
    exact mul_lt_mul_of_pos_left h ha
  · intro l
    have h1 := neg_one_lt_tanh (l / 5)
    have h2 := tanh_lt_one (l / 5)
    unfold liquidity_effect_pct alpha_liq
    constructor <;> nlinarith

/-- C6 witness: the strict slope and the lower bound at concrete points,
by the theorem itself. -/
theorem c6_liquidity_saturating_witness :
    liquidity_effect_pct 0 < liquidity_effect_pct 1 ∧
    -(0.15) < liquidity_effect_pct 0 :=
  ⟨c6_liquidity_saturating.1 (by norm_num), (c6_liquidity_saturating.2.2 0).1⟩

/-- C7: the inflation effect is `gamma_infl * i` when `|i| ≤ 2`, gains
the extra term `0.05 * (|i| - 2) ^ 2 * sign i` exactly when `|i| > 2`,
and evaluates to `1.10` at `i = 3`. -/
theorem c7_inflation_threshold_penalty :
    infl_effect_pct 3 = 1.10 ∧
    (∀ i : ℝ, |i| ≤ 2 → infl_effect_pct i = 0.35 * i) ∧
    (∀ i : ℝ, 2 < |i| →
      infl_effect_pct i = 0.35 * i + 0.05 * (|i| - 2) ^ 2 * np_sign i) := by
  refine ⟨?_, ?_, ?_⟩
  · have h3 : |(3:ℝ)| = 3 := abs_of_nonneg (by norm_num)
    unfold infl_effect_pct np_sign gamma_infl quadratic_infl_threshold
    rw [h3, if_pos (by norm_num : (2:ℝ) < 3), if_pos (by norm_num : (0:ℝ) < 3)]
    norm_num
  · intro i h
    unfold infl_effect_pct gamma_infl quadratic_infl_threshold
    rw [if_neg (not_lt.mpr h)]
    ring
  · intro i h
    unfold infl_effect_pct gamma_infl quadratic_infl_threshold
    rw [if_pos h]

/-- C7 witness: the linear regime at `i = 1` and the penalty regime at
`i = 3`, by the theorem itself. -/
theorem c7_inflation_threshold_penalty_witness :
    infl_effect_pct 1 = 0.35 * 1 ∧
    infl_effect_pct 3 = 0.35 * 3 + 0.05 * (|(3:ℝ)| - 2) ^ 2 * np_sign 3 :=
  ⟨c7_inflation_threshold_penalty.2.1 1 (by rw [abs_one]; norm_num),
   c7_inflation_threshold_penalty.2.2 3
     (by rw [abs_of_nonneg (by norm_num : (0:ℝ) ≤ 3)]; norm_num)⟩

/-- C9: the risk-level thresholds are closed on the lower bound — a score
of exactly 3 maps to Medium, exactly 6 to High, and in general a score
below 3 is Low, in `[3, 6)` Medium, and at or above 6 High. -/
theorem c9_risk_level_thresholds :
    risk_level 3 = RiskLevel.Medium ∧ risk_level 6 = RiskLevel.High ∧
    (∀ s : ℚ, s < 3 → risk_level s = RiskLevel.Low) ∧
    (∀ s : ℚ, 3 ≤ s → s < 6 → risk_level s = RiskLevel.Medium) ∧
    (∀ s : ℚ, 6 ≤ s → risk_level s = RiskLevel.High) := by
  refine ⟨by decide, by decide, ?_, ?_, ?_⟩
  · intro s h
    unfold risk_level
    rw [if_pos h]
  · intro s h3 h6
    unfold risk_level
    rw [if_neg (not_lt.mpr h3), if_pos h6]
  · intro s h
    unfold risk_level
    rw [if_neg (not_lt.mpr (by linarith)), if_neg (not_lt.mpr (by linarith))]

/-- C9 witness: one score from each band, by the theorem itself. -/
theorem c9_risk_level_thresholds_witness :
    risk_level 1 = RiskLevel.Low ∧ risk_level 4 = RiskLevel.Medium ∧
    risk_level 7 = RiskLevel.High :=
  ⟨c9_risk_level_thresholds.2.2.1 1 (by norm_num),
   c9_risk_level_thresholds.2.2.2.1 4 (by norm_num) (by norm_num),
   c9_risk_level_thresholds.2.2.2.2 7 (by norm_num)⟩

/-- C3: with all three shocks zero, every year of the generated historical
series keeps its GDP and inflation unchanged under projection, the risk
score is 0, and the risk level is Low. -/
theorem c3_zero_shocks_identity (k : ℕ) (g f : ℝ)
    (hg : isGenGDP k g) (hf : isGenInfl f) :
    projected g 0 0 0 = g ∧ projected_inflation f 0 = f ∧
    risk_score 0 0 0 = 0 ∧ risk_score_normalized 0 0 0 = 0 ∧
    risk_level (risk_score_normalized 0 0 0) = RiskLevel.Low := by
  have hg980 := isGenGDP_ge_980 k g hg
  obtain ⟨u, hu1, hu2, rfl⟩ := hf
  have hraw : risk_score 0 0 0 = 0 := by
    norm_num [risk_score, contrib_interest, contrib_liquidity, contrib_inflation]
  have hnorm : risk_score_normalized 0 0 0 = 0 := by
    rw [risk_score_normalized, hraw]
    norm_num
  refine ⟨?_, ?_, hraw, hnorm, ?_⟩
  · unfold projected
    rw [combined_pct_zero]
    rw [show g * (1 + 0 / 100) = g by ring]
    exact max_eq_left (by linarith)
  · unfold projected_inflation np_clip
    rw [add_zero, max_eq_left (by linarith : (-10:ℝ) ≤ 5 + u)]
    exact min_eq_left (by linarith)
  · rw [hnorm]
    unfold risk_level
    rw [if_pos (by norm_num : (0:ℚ) < 3)]

/-- C3 witness: the year with GDP 1000 and inflation 5 under zero shocks,
by the theorem itself. -/
theorem c3_zero_shocks_identity_witness :
    projected 1000 0 0 0 = 1000 ∧ projected_inflation 5 0 = 5 ∧
    risk_score 0 0 0 = 0 ∧ risk_score_normalized 0 0 0 = 0 ∧
    risk_level (risk_score_normalized 0 0 0) = RiskLevel.Low :=
  c3_zero_shocks_identity 0 1000 5 ⟨0, by norm_num⟩ ⟨0, by norm_num⟩

/-- C4: for every year of the generated series, every shock triple and
every raw volatility statistic, the confidence band brackets the projected
GDP — `gdp_worst ≤ projected ≤ gdp_best` — and all three are
non-negative. -/
theorem c4_band_brackets_projection (k : ℕ) (g v r l i : ℝ)
    (hg : isGenGDP k g) :
    gdp_worst g v r l i ≤ projected g r l i ∧
    projected g r l i ≤ gdp_best g v r l i ∧
    0 ≤ gdp_worst g v r l i ∧ 0 ≤ projected g r l i ∧
    0 ≤ gdp_best g v r l i := by
  have hg0 : (0:ℝ) ≤ g := by
    have := isGenGDP_ge_980 k g hg
    linarith
  have hvol : 0 < gdp_vol_pct v := by
    unfold gdp_vol_pct
    by_cases h : v ≤ 0
    · rw [if_pos h]; norm_num
    · rw [if_neg h]; exact lt_of_not_le h
  have hmult : 0 ≤ band_multiplier r l i := by
    have hss : 0 ≤ shock_strength r l i := by
      unfold shock_strength; positivity
    have hmin : (0:ℝ) ≤ min 0.6 (shock_strength r l i / 5) :=
      le_min (by norm_num) (by positivity)
    unfold band_multiplier
    linarith
  have hband : 0 ≤ band g v r l i :=
    mul_nonneg (mul_nonneg hg0 hvol.le) hmult
  have hproj : 0 ≤ projected g r l i := le_max_right _ 0
  refine ⟨?_, ?_, le_max_right _ 0, hproj, ?_⟩
  · unfold gdp_worst
    exact max_le (by linarith) hproj
  · unfold gdp_best
    linarith
  · unfold gdp_best
    linarith

/-- C4 witness: GDP 1000, a degenerate raw volatility 0 (floored to 0.02)
and zero shocks, by the theorem itself. -/
theorem c4_band_brackets_projection_witness :
    gdp_worst 1000 0 0 0 0 ≤ projected 1000 0 0 0 ∧
    projected 1000 0 0 0 ≤ gdp_best 1000 0 0 0 0 ∧
    0 ≤ gdp_worst 1000 0 0 0 0 ∧ 0 ≤ projected 1000 0 0 0 ∧
    0 ≤ gdp_best 1000 0 0 0 0 :=
  c4_band_brackets_projection 0 1000 0 0 0 0 ⟨0, by norm_num⟩

/-- C8: the normalized risk score always lies in `[0, 10]` and is
monotonically non-decreasing in the absolute value of each shock, the
other two held fixed. -/
theorem c8_normalized_score_bounds_mono :
    (∀ r l i : ℚ, 0 ≤ risk_score_normalized r l i ∧
      risk_score_normalized r l i ≤ 10) ∧
    (∀ r r' l i : ℚ, |r| ≤ |r'| →
      risk_score_normalized r l i ≤ risk_score_normalized r' l i) ∧
    (∀ r l l' i : ℚ, |l| ≤ |l'| →
      risk_score_normalized r l i ≤ risk_score_normalized r l' i) ∧
    (∀ r l i i' : ℚ, |i| ≤ |i'| →
      risk_score_normalized r l i ≤ risk_score_normalized r l i') := by
  have key : ∀ a b : ℚ, a ≤ b →
      min 10 (a / 9 * 10) ≤ min 10 (b / 9 * 10) := by
    intro a b h
    exact min_le_min le_rfl (by linarith)
  refine ⟨?_, ?_, ?_, ?_⟩
  · intro r l i
    constructor
    · exact le_min (by norm_num) (by have := risk_score_nonneg r l i; positivity)
    · exact min_le_left _ _
  · intro r r' l i h
    refine key _ _ ?_
    unfold risk_score contrib_interest
    linarith
  · intro r l l' i h
    refine key _ _ ?_
    unfold risk_score contrib_liquidity
    linarith
  · intro r l i i' h
    refine key _ _ ?_
    unfold risk_score contrib_inflation
    linarith

/-- C8 witness: bounds at `(1, 1, 1)` and one monotone step per channel,
by the theorem itself. -/
theorem c8_normalized_score_bounds_mono_witness :
    (0 ≤ risk_score_normalized 1 1 1 ∧ risk_score_normalized 1 1 1 ≤ 10) ∧
    risk_score_normalized 1 1 1 ≤ risk_score_normalized 2 1 1 ∧
    risk_score_normalized 1 1 1 ≤ risk_score_normalized 1 2 1 ∧
    risk_score_normalized 1 1 1 ≤ risk_score_normalized 1 1 2 :=
  ⟨c8_normalized_score_bounds_mono.1 1 1 1,
   c8_normalized_score_bounds_mono.2.1 1 2 1 1 (by norm_num),
   c8_normalized_score_bounds_mono.2.2.1 1 1 2 1 (by norm_num),
   c8_normalized_score_bounds_mono.2.2.2 1 1 1 2 (by norm_num)⟩

/-- C10: within the slider ranges (`rate ∈ [-2,2]`, `liquidity ∈ [-5,5]`,
`inflation ∈ [-2,2]`) and on any GDP value the generator can produce
(every one is at least 980), the zero floor on projected GDP never
activates: the unclamped value is already strictly positive, so
`projected` equals it. -/
theorem c10_zero_floor_never_active (k : ℕ) (g r l i : ℝ)
    (hg : isGenGDP k g) (hr1 : -2 ≤ r) (hr2 : r ≤ 2)
    (hl1 : -5 ≤ l) (hl2 : l ≤ 5) (hi1 : -2 ≤ i) (hi2 : i ≤ 2) :
    0 < g * (1 + combined_pct r l i / 100) ∧
    projected g r l i = g * (1 + combined_pct r l i / 100) := by
  have hg980 := isGenGDP_ge_980 k g hg
  have hint : interest_effect_pct r ≤ 2.2 := by
    unfold interest_effect_pct int_lin alpha_int
    rw [int_quad_eq]
    unfold beta_int
    nlinarith
  have hliq : -(0.15) < liquidity_effect_pct l := by
    unfold liquidity_effect_pct alpha_liq
    nlinarith [neg_one_lt_tanh (l / 5)]
  have hinf : infl_effect_pct i ≤ 0.7 := by
    have habs : |i| ≤ 2 := abs_le.mpr ⟨hi1, hi2⟩
    unfold infl_effect_pct gamma_infl quadratic_infl_threshold
    rw [if_neg (not_lt.mpr habs)]
    linarith
  have hc : -(3.05) < combined_pct r l i := by
    unfold combined_pct
    linarith
  have hpos : 0 < 1 + combined_pct r l i / 100 := by linarith
  have h : 0 < g * (1 + combined_pct r l i / 100) :=
    mul_pos (by linarith) hpos
  refine ⟨h, ?_⟩
  unfold projected
  exact max_eq_left h.le

/-- C10 witness: GDP 1000 under zero shocks, by the theorem itself. -/
theorem c10_zero_floor_never_active_witness :
    0 < (1000:ℝ) * (1 + combined_pct 0 0 0 / 100) ∧
    projected 1000 0 0 0 = 1000 * (1 + combined_pct 0 0 0 / 100) :=
  c10_zero_floor_never_active 0 1000 0 0 0 ⟨0, by norm_num⟩
    (by norm_num) (by norm_num) (by norm_num) (by norm_num)
    (by norm_num) (by norm_num)

end Bhum
